import Mathlib

/-!
Verification of the `ConfigManager` configuration-file store
(`Config Manager/config_manager.py`) against its specification.

The Python code is shallowly embedded: the filesystem is a partial map
from paths to file contents, Python exceptions are an explicit error
type threaded through `Except`, and every `print` diagnostic is a
constructor of an explicit message type collected in a list.  The JSON
and YAML library entry points (`json.load`, `yaml.safe_load`,
`json.dump`, `yaml.dump`) are not part of the repository, so they are
parameters of the model (`Libs`).
-/

set_option autoImplicit false

namespace ConfigMgr

/-- The values a JSON/YAML document can hold after parsing: the Python
value universe relevant to `config_manager.py` (strings, integers,
booleans, `None`, lists and dicts; dicts are insertion-ordered
association lists, as in Python). -/
inductive Value where
  | str (s : String)
  | int (n : Int)
  | bool (b : Bool)
  | null
  | list (l : List Value)
  | dict (d : List (String × Value))

/-- Python truthiness of a `Value`, as tested by `if self.config_data:`.
Empty strings, `0`, `False`, `None`, empty lists and empty dicts are
falsy; everything else is truthy. -/
def Value.truthy : Value → Bool
  | .str s => !s.isEmpty
  | .int n => n != 0
  | .bool b => b
  | .null => false
  | .list l => !l.isEmpty
  | .dict d => !d.isEmpty

/-- Whether a `Value` is a Python `dict` (`isinstance(data, dict)`). -/
def Value.isDict : Value → Bool
  | .dict _ => true
  | _ => false

/-- Python truthiness of an optional `Value` (the attribute
`self.config_data`, which is `None` after a failed load). -/
def pyTruthyOpt : Option Value → Bool
  | none => false
  | some v => v.truthy

/-- Lookup in a Python dict modelled as an association list: first
binding of the key (`key in data` / `data[key]`). -/
def assocGet : List (String × Value) → String → Option Value
  | [], _ => none
  | (k1, v1) :: rest, k => if k1 = k then some v1 else assocGet rest k

/-- Assignment `data[key] = value` on a Python dict modelled as an
association list: replaces the first binding of the key, appends if the
key is absent. -/
def assocSet : List (String × Value) → String → Value → List (String × Value)
  | [], k, v => [(k, v)]
  | (k1, v1) :: rest, k, v =>
    if k1 = k then (k, v) :: rest else (k1, v1) :: assocSet rest k v

/-- Python's `str.endswith`: suffix test on the character sequences. -/
def strEndsWith (p suf : String) : Bool :=
  suf.data.isSuffixOf p.data

/-- The Python exceptions that `config_manager.py` raises or handles:
`FileNotFoundError`, `json.JSONDecodeError`, `yaml.YAMLError`, the
`ValueError("Unsupported file format")` raised for an unknown
extension, and the `IndexError` from `keys[0]` on an empty key list. -/
inductive PyExc where
  | fileNotFound
  | jsonDecode
  | yamlError
  | valueError
  | indexError
deriving DecidableEq

/-- The diagnostics the code prints, one constructor per `print` call
site in `config_manager.py`. -/
inductive Msg where
  | configNotFound (path : String)
  | jsonDecodeError
  | yamlDecodeError
  | errorReading (e : PyExc)
  | errorWriting (e : PyExc)
  | backupCreated (dir : String)
  | backupNotFound (path : String)
  | errorBackup (e : PyExc)
  | validConfig
  | invalidFormat
  | errorValidating (e : PyExc)
  | keyNotFound (k : String)
  | keyNotFoundOrNotDict (k : String)
  | valueUpdated
  | failedToUpdate
  | failedToReadForUpdate
  | errorUpdating (e : PyExc)
deriving DecidableEq

/-- The filesystem: a partial map from paths to file contents. -/
def FS : Type := String → Option String

/-- Writing (or overwriting) one file. -/
def FS.set (fs : FS) (p : String) (c : String) : FS :=
  fun q => if q = p then some c else fs q

/-- The library entry points used by the code but defined outside the
repository: `json.load`, `yaml.safe_load` (which may raise), and
`json.dump`, `yaml.dump` (serialization). -/
structure Libs where
  parseJSON : String → Except PyExc Value
  parseYAML : String → Except PyExc Value
  dumpJSON : Value → String
  dumpYAML : Value → String

/-- The store: `self.config_path` and `self.config_data`
(`none` when loading failed). -/
structure ConfigManager where
  config_path : String
  config_data : Option Value

/-- The body of the `try` block of `ConfigManager.read_config`: open the
file (raising `FileNotFoundError` if absent), then dispatch on the
path's extension — `.json` to the JSON parser, `.yaml`/`.yml` to the
YAML parser, anything else raises `ValueError("Unsupported file
format")`. -/
def readBody (L : Libs) (fs : FS) (path : String) : Except PyExc Value :=
  match fs path with
  | none => .error .fileNotFound
  | some content =>
    if strEndsWith path (".json") then L.parseJSON content
    else if strEndsWith path (".yaml") || strEndsWith path (".yml") then L.parseYAML content
    else .error .valueError

/-- The `except` clauses of `ConfigManager.read_config`, in source
order: `FileNotFoundError`, `json.JSONDecodeError`, `yaml.YAMLError`,
then the catch-all `except Exception`. -/
def readExcMsg (path : String) : PyExc → Msg
  | .fileNotFound => .configNotFound path
  | .jsonDecode => .jsonDecodeError
  | .yamlError => .yamlDecodeError
  | e => .errorReading e

/-- `ConfigManager.read_config`: runs `readBody`; every exception is
converted to one printed diagnostic and the result `None`. -/
def read_config (L : Libs) (fs : FS) (path : String) : Option Value × List Msg :=
  match readBody L fs path with
  | .ok v => (some v, [])
  | .error e => (none, [readExcMsg path e])

/-- `ConfigManager.write_config`: `open(self.config_path, 'w')` first
truncates the file to empty; then the extension dispatch serializes, or
raises `ValueError` for an unsupported extension, which the catch-all
`except` turns into a printed diagnostic (leaving the truncated file
behind). -/
def write_config (L : Libs) (fs : FS) (path : String) (data : Value) : FS × List Msg :=
  let fs1 := FS.set fs path ("")
  if strEndsWith path (".json") then (FS.set fs1 path (L.dumpJSON data), [])
  else if strEndsWith path (".yaml") || strEndsWith path (".yml") then
    (FS.set fs1 path (L.dumpYAML data), [])
  else (fs1, [.errorWriting .valueError])

/-- The backup directory name `"Config Manager/backups/backup_" +
timestamp` built by `ConfigManager.backup_config`. -/
def backupDirName (now : String) : String :=
  ("Config Manager/backups/backup_") ++ now

/-- The final path component of a path (the filename `shutil.copy`
keeps when copying into a directory). -/
def basenameOf (p : String) : String :=
  (p.splitOn ("/")).getLastD p

/-- Where `shutil.copy(self.config_path, backup_dir)` puts the copy:
the backup directory plus the source filename. -/
def backupDest (now : String) (path : String) : String :=
  backupDirName now ++ ("/") ++ basenameOf path

/-- `ConfigManager.backup_config`: computes the timestamped backup
directory, creates it, and copies the source file into it; a missing
source file prints `FileNotFoundError` diagnostics instead. -/
def backup_config (fs : FS) (now : String) (path : String) : FS × List Msg :=
  match fs path with
  | none => (fs, [.backupNotFound path])
  | some content =>
    (FS.set fs (backupDest now path) content, [.backupCreated (backupDirName now)])

/-- `ConfigManager.__init__`: store the path, load via `read_config`,
and call `backup_config` exactly when the loaded data is truthy
(`if self.config_data:`).  The last component counts the calls to
`backup_config`. -/
def initStore (L : Libs) (fs : FS) (now : String) (path : String) :
    ConfigManager × FS × List Msg × Nat :=
  let r := read_config L fs path
  let cm : ConfigManager := { config_path := path, config_data := r.1 }
  if pyTruthyOpt r.1 then
    let b := backup_config fs now path
    (cm, b.1, r.2 ++ b.2, 1)
  else (cm, fs, r.2, 0)

/-- `ConfigManager.validate_config`: `False` when `config_data is
None` (no diagnostic), `True` with a "valid" message when it is a dict,
`False` with a "not in the proper format" message otherwise. -/
def validate_config (cm : ConfigManager) : Bool × List Msg :=
  match cm.config_data with
  | none => (false, [])
  | some (.dict _) => (true, [.validConfig])
  | some _ => (false, [.invalidFormat])

/-- The nested helper `recursive_update(data, keys, value)` of
`ConfigManager.update_value`, written functionally: the result carries
the returned boolean, the (possibly updated) data, and the printed
messages; `keys[0]` on an empty list raises `IndexError`.  On any
non-dict `data` the function falls through to `return False` without
printing. -/
def recursive_update : Value → List String → Value → Except PyExc (Bool × Value × List Msg)
  | .dict d, keys, value =>
    match keys with
    | [] => .error .indexError
    | [key] =>
      if (assocGet d key).isSome then .ok (true, .dict (assocSet d key value), [])
      else .ok (false, .dict d, [.keyNotFound key])
    | key :: rest =>
      match assocGet d key with
      | some (.dict sub) =>
        match recursive_update (.dict sub) rest value with
        | .ok (b, newSub, msgs) =>
          if b then .ok (true, .dict (assocSet d key newSub), msgs)
          else .ok (false, .dict d, msgs)
        | .error e => .error e
      | _ => .ok (false, .dict d, [.keyNotFoundOrNotDict key])
  | data, _, _ => .ok (false, data, [])

/-- `ConfigManager.update_value`: when `self.config_data` is truthy,
run `recursive_update`; on `True` persist the whole document with
`write_config` and print the success message, on `False` print a
failure message, and turn a raised exception into a diagnostic via the
outer `except`.  A falsy (absent or empty) document prints "Failed to
read configuration file for update." and does nothing.  The last
component counts the calls to `write_config`. -/
def update_value (L : Libs) (cm : ConfigManager) (fs : FS) (keys : List String)
    (new_value : Value) : ConfigManager × FS × List Msg × Nat :=
  match cm.config_data with
  | some d =>
    if d.truthy then
      match recursive_update d keys new_value with
      | .ok (true, newData, msgs) =>
        let w := write_config L fs cm.config_path newData
        ({ cm with config_data := some newData }, w.1, msgs ++ w.2 ++ [.valueUpdated], 1)
      | .ok (false, newData, msgs) =>
        ({ cm with config_data := some newData }, fs, msgs ++ [.failedToUpdate], 0)
      | .error e => (cm, fs, [.errorUpdating e], 0)
    else (cm, fs, [.failedToReadForUpdate], 0)
  | none => (cm, fs, [.failedToReadForUpdate], 0)

/-- Modelled from the spec: the key-path update rule as §4 states it —
descend through nested mappings while each intermediate key is present
with a mapping value, and replace the value at the final key when that
key is present; `none` is failure.  Used to check `recursive_update`
against the specification's words. -/
def specNestedUpdate : List (String × Value) → List String → Value →
    Option (List (String × Value))
  | _, [], _ => none
  | d, [k], v => if (assocGet d k).isSome then some (assocSet d k v) else none
  | d, k :: rest, v =>
    match assocGet d k with
    | some (.dict sub) => (specNestedUpdate sub rest v).map (fun s => assocSet d k (.dict s))
    | _ => none

/-! ## Concrete instances used by witnesses and counterexamples -/

/-- A library instance whose parsers always fail (the parsing behavior
is irrelevant for the scenarios it is used in). -/
def L0 : Libs where
  parseJSON := fun _ => .error .jsonDecode
  parseYAML := fun _ => .error .yamlError
  dumpJSON := fun _ => ""
  dumpYAML := fun _ => ""

/-- A library instance whose JSON parser parses the file used in the
scenario to the empty dict, as `json.load` does on an empty JSON
object. -/
def LEmptyDoc : Libs :=
  { L0 with parseJSON := fun _ => .ok (.dict []) }

/-- A library instance whose JSON parser parses the file used in the
scenario to a one-entry dict. -/
def LOneKey : Libs :=
  { L0 with parseJSON := fun _ => .ok (.dict [(("a"), .int 1)]) }

/-- The empty filesystem. -/
def fsEmpty : FS := fun _ => none

/-- A filesystem holding one JSON file. -/
def fsJson : FS := fun q => if q = ("c.json") then some ("e") else none

/-- A filesystem holding one file with an unsupported extension. -/
def fsToml : FS := fun q => if q = ("config.toml") then some ("x") else none

/-! ## Helper lemmas -/

/-- When `recursive_update` returns `False`, the data is unchanged (the
assignment `data[key] = value` never ran). -/
theorem recursive_update_false_eq (keys : List String) (d v d2 : Value) (msgs : List Msg)
    (h : recursive_update d keys v = .ok (false, d2, msgs)) : d2 = d := by
  cases d with
  | dict l =>
    cases keys with
    | nil => simp [recursive_update] at h
    | cons k rest =>
      cases rest with
      | nil =>
        simp only [recursive_update] at h
        split at h <;> simp_all
      | cons k2 rest2 =>
        simp only [recursive_update] at h
        split at h
        · split at h
          · split at h <;> simp_all
          · simp_all
        · simp_all
  | str s => simp_all [recursive_update]
  | int n => simp_all [recursive_update]
  | bool b => simp_all [recursive_update]
  | null => simp_all [recursive_update]
  | list l => simp_all [recursive_update]

/-- When `recursive_update` returns `True`, the data was a non-empty
dict, hence truthy. -/
theorem recursive_update_true_truthy (keys : List String) (d v d2 : Value) (msgs : List Msg)
    (h : recursive_update d keys v = .ok (true, d2, msgs)) : d.truthy = true := by
  cases d with
  | dict l =>
    cases l with
    | cons p l2 => simp [Value.truthy]
    | nil =>
      cases keys with
      | nil => simp [recursive_update] at h
      | cons k rest =>
        cases rest with
        | nil => simp [recursive_update, assocGet] at h
        | cons k2 rest2 => simp [recursive_update, assocGet] at h
  | str s => simp_all [recursive_update]
  | int n => simp_all [recursive_update]
  | bool b => simp_all [recursive_update]
  | null => simp_all [recursive_update]
  | list l => simp_all [recursive_update]

/-- `recursive_update` computes exactly the specification's nested
update on a dict: on the spec's success it returns `True` with the
updated document and no message, on the spec's failure it returns
`False`, the unchanged document, and a single "key not found" or "key
not found or not a dictionary" diagnostic. -/
theorem ru_refines (keys : List String) :
    ∀ (d : List (String × Value)) (v : Value), keys ≠ [] →
      ((∀ d2, specNestedUpdate d keys v = some d2 →
          recursive_update (.dict d) keys v = .ok (true, .dict d2, [])) ∧
       (specNestedUpdate d keys v = none →
          ∃ k, recursive_update (.dict d) keys v = .ok (false, .dict d, [.keyNotFound k]) ∨
               recursive_update (.dict d) keys v = .ok (false, .dict d, [.keyNotFoundOrNotDict k]))) := by
  induction keys with
  | nil => intro d v hne; exact absurd rfl hne
  | cons k rest ih =>
    intro d v _
    cases rest with
    | nil =>
      constructor
      · intro d2 hs
        by_cases hg : (assocGet d k).isSome
        · simp only [specNestedUpdate, hg, if_true, Option.some.injEq] at hs
          simp only [recursive_update, hg, if_true, hs]
        · simp [specNestedUpdate, hg] at hs
      · intro hs
        by_cases hg : (assocGet d k).isSome
        · simp [specNestedUpdate, hg] at hs
        · refine ⟨k, Or.inl ?_⟩
          simp [recursive_update, hg]
    | cons k2 rest2 =>
      constructor
      · intro d2 hs
        simp only [specNestedUpdate] at hs
        cases hg : assocGet d k with
        | none => simp [hg] at hs
        | some w =>
          cases w with
          | dict sub =>
            simp only [hg] at hs
            cases hspec : specNestedUpdate sub (k2 :: rest2) v with
            | none => simp [hspec] at hs
            | some s =>
              rw [hspec] at hs
              simp only [Option.map] at hs
              simp only [Option.some.injEq] at hs
              have hrec := (ih sub v (by simp)).1 s hspec
              subst hs
              simp [recursive_update, hg, hrec]
          | str s => simp [hg] at hs
          | int n => simp [hg] at hs
          | bool b => simp [hg] at hs
          | null => simp [hg] at hs
          | list l2 => simp [hg] at hs
      · intro hs
        simp only [specNestedUpdate] at hs
        cases hg : assocGet d k with
        | none =>
          refine ⟨k, Or.inr ?_⟩
          simp [recursive_update, hg]
        | some w =>
          cases w with
          | dict sub =>
            simp only [hg] at hs
            cases hspec : specNestedUpdate sub (k2 :: rest2) v with
            | some s => simp [hspec] at hs
            | none =>
              obtain ⟨k3, hk3⟩ := (ih sub v (by simp)).2 hspec
              cases hk3 with
              | inl hrec =>
                refine ⟨k3, Or.inl ?_⟩
                simp [recursive_update, hg, hrec]
              | inr hrec =>
                refine ⟨k3, Or.inr ?_⟩
                simp [recursive_update, hg, hrec]
          | str s =>
            refine ⟨k, Or.inr ?_⟩
            simp [recursive_update, hg]
          | int n =>
            refine ⟨k, Or.inr ?_⟩
            simp [recursive_update, hg]
          | bool b =>
            refine ⟨k, Or.inr ?_⟩
            simp [recursive_update, hg]
          | null =>
            refine ⟨k, Or.inr ?_⟩
            simp [recursive_update, hg]
          | list l2 =>
            refine ⟨k, Or.inr ?_⟩
            simp [recursive_update, hg]

/-- A successful `readBody` means the file existed. -/
theorem readBody_ok_file (L : Libs) (fs : FS) (path : String) (v : Value)
    (h : readBody L fs path = .ok v) : ∃ c, fs path = some c := by
  unfold readBody at h
  cases hf : fs path with
  | none => rw [hf] at h; simp at h
  | some c => exact ⟨c, rfl⟩

/-! ## Claims -/

/-- C2: for every document whose top level is a mapping and every
non-empty key path, the update descends only while each intermediate
key is present with a mapping value — otherwise it fails with a "key
not found (or not a mapping)" diagnostic and no mutation — and at the
final key replaces the existing value with the new value without any
type check when the key is present, failing with "key not found" and no
mutation when it is absent.  Stated as: `recursive_update` agrees with
the specification's nested-update rule `specNestedUpdate`. -/
theorem spec_claim_C2 (d : List (String × Value)) (keys : List String) (v : Value)
    (h : keys ≠ []) :
    (∀ d2, specNestedUpdate d keys v = some d2 →
        recursive_update (.dict d) keys v = .ok (true, .dict d2, [])) ∧
    (specNestedUpdate d keys v = none →
        ∃ k, recursive_update (.dict d) keys v = .ok (false, .dict d, [.keyNotFound k]) ∨
             recursive_update (.dict d) keys v = .ok (false, .dict d, [.keyNotFoundOrNotDict k])) :=
  ru_refines keys d v h

/-- Witness for C2 at the document mapping a to the mapping b to 1,
key path a.b, new value 2. -/
theorem spec_claim_C2_witness :
    ([("a"), ("b")] : List String) ≠ [] ∧
    specNestedUpdate [(("a"), .dict [(("b"), .int 1)])] [("a"), ("b")] (.int 2)
      = some [(("a"), .dict [(("b"), .int 2)])] ∧
    recursive_update (.dict [(("a"), .dict [(("b"), .int 1)])]) [("a"), ("b")] (.int 2)
      = .ok (true, .dict [(("a"), .dict [(("b"), .int 2)])], []) := by
  refine ⟨by simp, rfl, ?_⟩
  exact (spec_claim_C2 [(("a"), .dict [(("b"), .int 1)])] [("a"), ("b")] (.int 2)
    (by simp)).1 [(("a"), .dict [(("b"), .int 2)])] rfl

/-- C4: `validate_config` returns true if and only if a document is
present in the store and its top-level value is a mapping; false when
no document was loaded and when the top level is a scalar or a
sequence. -/
theorem spec_claim_C4 (cm : ConfigManager) :
    (validate_config cm).1 = true ↔ ∃ d, cm.config_data = some (.dict d) := by
  obtain ⟨p, data⟩ := cm
  cases data with
  | none => simp [validate_config]
  | some v => cases v <;> simp [validate_config]

/-- C6: `read_config` never lets an exception escape: a successful body
yields the document with no diagnostic, and every exception of the body
is converted into exactly one reported diagnostic with no document
returned. -/
theorem spec_claim_C6 (L : Libs) (fs : FS) (path : String) :
    (∀ v, readBody L fs path = .ok v → read_config L fs path = (some v, [])) ∧
    (∀ e, readBody L fs path = .error e →
      (read_config L fs path).1 = none ∧
      (read_config L fs path).2 = [readExcMsg path e]) := by
  constructor
  · intro v h
    simp [read_config, h]
  · intro e h
    simp [read_config, h]

/-- Witness for C6 at a missing file: the body raises
`FileNotFoundError` and `read_config` reports it, returning no
document. -/
theorem spec_claim_C6_witness :
    readBody L0 fsEmpty ("config.toml") = .error .fileNotFound ∧
    (read_config L0 fsEmpty ("config.toml")).1 = none ∧
    (read_config L0 fsEmpty ("config.toml")).2 = [.configNotFound ("config.toml")] := by
  refine ⟨rfl, ?_⟩
  exact (spec_claim_C6 L0 fsEmpty ("config.toml")).2 .fileNotFound rfl

/-- C7: on a store with a loaded document, `update_value` with an empty
key path fails: the document is unchanged, no write occurs, no
exception escapes (the `IndexError` from `keys[0]` is caught), and a
diagnostic is reported. -/
theorem spec_claim_C7 (L : Libs) (fs : FS) (path : String) (d v : Value) :
    (update_value L { config_path := path, config_data := some d } fs [] v).1.config_data
      = some d ∧
    (update_value L { config_path := path, config_data := some d } fs [] v).2.1 = fs ∧
    (update_value L { config_path := path, config_data := some d } fs [] v).2.2.2 = 0 ∧
    (update_value L { config_path := path, config_data := some d } fs [] v).2.2.1 ≠ [] := by
  cases d with
  | dict l =>
    cases l with
    | nil => simp [update_value, Value.truthy]
    | cons p rest => simp [update_value, Value.truthy, recursive_update]
  | str s => cases ht : Value.truthy (.str s) <;> simp [update_value, ht, recursive_update]
  | int n => cases ht : Value.truthy (.int n) <;> simp [update_value, ht, recursive_update]
  | bool b => cases ht : Value.truthy (.bool b) <;> simp [update_value, ht, recursive_update]
  | null => simp [update_value, Value.truthy]
  | list l => cases ht : Value.truthy (.list l) <;> simp [update_value, ht, recursive_update]

/-- C8: on a store whose loaded document is the empty mapping, every
`update_value` call takes the falsy-document branch: it reports
"Failed to read configuration file for update." (not a missing-key
diagnostic), mutates nothing and writes nothing — exactly as it does
when no document is present at all. -/
theorem spec_claim_C8 (L : Libs) (fs : FS) (path : String) (keys : List String) (v : Value) :
    update_value L { config_path := path, config_data := some (.dict []) } fs keys v
      = ({ config_path := path, config_data := some (.dict []) }, fs,
         [.failedToReadForUpdate], 0) ∧
    (update_value L { config_path := path, config_data := some (.dict []) } fs keys v).2.2
      = (update_value L { config_path := path, config_data := none } fs keys v).2.2 := by
  exact ⟨rfl, rfl⟩

/-- C3: on a store with a loaded document, `update_value` performs
exactly one `write_config` (persisting the whole in-memory document)
when the in-memory mutation succeeds, and performs no write at all and
leaves the document unchanged when the mutation fails (including the
falsy-document and raised-exception paths). -/
theorem spec_claim_C3 (L : Libs) (fs : FS) (path : String) (d : Value)
    (keys : List String) (v : Value) :
    (∀ d2 msgs, recursive_update d keys v = .ok (true, d2, msgs) →
      (update_value L { config_path := path, config_data := some d } fs keys v).2.2.2 = 1 ∧
      (update_value L { config_path := path, config_data := some d } fs keys v).1.config_data
        = some d2 ∧
      (update_value L { config_path := path, config_data := some d } fs keys v).2.1
        = (write_config L fs path d2).1) ∧
    ((∀ d2 msgs, ¬ recursive_update d keys v = .ok (true, d2, msgs)) →
      (update_value L { config_path := path, config_data := some d } fs keys v).2.2.2 = 0 ∧
      (update_value L { config_path := path, config_data := some d } fs keys v).1.config_data
        = some d ∧
      (update_value L { config_path := path, config_data := some d } fs keys v).2.1 = fs) := by
  constructor
  · intro d2 msgs hr
    have ht := recursive_update_true_truthy keys d v d2 msgs hr
    simp [update_value, ht, hr]
  · intro hne
    cases ht : d.truthy with
    | false => simp [update_value, ht]
    | true =>
      cases hr : recursive_update d keys v with
      | ok r =>
        obtain ⟨b, d2, msgs⟩ := r
        cases b with
        | true => exact absurd hr (hne d2 msgs)
        | false =>
          have hd2 := recursive_update_false_eq keys d v d2 msgs hr
          subst hd2
          simp [update_value, ht, hr]
      | error e => simp [update_value, ht, hr]

/-- Witness for C3 at a successful one-key update on the document
mapping a to 1. -/
theorem spec_claim_C3_witness :
    recursive_update (.dict [(("a"), .int 1)]) [("a")] (.int 2)
      = .ok (true, .dict [(("a"), .int 2)], []) ∧
    ((update_value L0 { config_path := ("c.json"), config_data := some (.dict [(("a"), .int 1)]) }
        fsJson [("a")] (.int 2)).2.2.2 = 1 ∧
     (update_value L0 { config_path := ("c.json"), config_data := some (.dict [(("a"), .int 1)]) }
        fsJson [("a")] (.int 2)).1.config_data = some (.dict [(("a"), .int 2)]) ∧
     (update_value L0 { config_path := ("c.json"), config_data := some (.dict [(("a"), .int 1)]) }
        fsJson [("a")] (.int 2)).2.1
       = (write_config L0 fsJson ("c.json") (.dict [(("a"), .int 2)])).1) := by
  refine ⟨rfl, ?_⟩
  exact (spec_claim_C3 L0 fsJson ("c.json") (.dict [(("a"), .int 1)]) [("a")] (.int 2)).1
    (.dict [(("a"), .int 2)]) [] rfl

/-- C9: when `write_config` is called on a path with an unsupported
extension, `open(path, 'w')` has already truncated the file before the
extension check fails, so after the reported failure the file on disk
is empty — a reported write failure does not mean the file is
unchanged. -/
theorem spec_claim_C9 (L : Libs) (fs : FS) (path : String) (data : Value)
    (h1 : strEndsWith path (".json") = false)
    (h2 : strEndsWith path (".yaml") = false)
    (h3 : strEndsWith path (".yml") = false) :
    (write_config L fs path data).1 path = some ("") ∧
    (write_config L fs path data).2 = [.errorWriting .valueError] ∧
    (∀ c, fs path = some c → c ≠ ("") → (write_config L fs path data).1 path ≠ fs path) := by
  have hw : write_config L fs path data = (FS.set fs path (""), [.errorWriting .valueError]) := by
    simp [write_config, h1, h2, h3]
  refine ⟨?_, ?_, ?_⟩
  · rw [hw]
    simp [FS.set]
  · rw [hw]
  · intro c hc hcne heq
    rw [hw] at heq
    simp only [FS.set, if_pos rfl] at heq
    rw [hc] at heq
    simp at heq
    exact hcne heq.symm

/-- Witness for C9 at the path config.toml holding the non-empty
content x: the reported failure leaves the file truncated to empty,
changed from its previous content. -/
theorem spec_claim_C9_witness :
    strEndsWith ("config.toml") (".json") = false ∧
    strEndsWith ("config.toml") (".yaml") = false ∧
    strEndsWith ("config.toml") (".yml") = false ∧
    (write_config L0 fsToml ("config.toml") .null).1 ("config.toml") = some ("") ∧
    (write_config L0 fsToml ("config.toml") .null).2 = [.errorWriting .valueError] ∧
    (write_config L0 fsToml ("config.toml") .null).1 ("config.toml")
      ≠ fsToml ("config.toml") := by
  refine ⟨by decide, by decide, by decide, ?_, ?_, ?_⟩
  · exact (spec_claim_C9 L0 fsToml ("config.toml") .null (by decide) (by decide) (by decide)).1
  · exact (spec_claim_C9 L0 fsToml ("config.toml") .null (by decide) (by decide) (by decide)).2.1
  · exact (spec_claim_C9 L0 fsToml ("config.toml") .null (by decide) (by decide)
      (by decide)).2.2 ("x") rfl (by decide)

/-- C10: on a store whose loaded document is present, truthy, but not a
mapping at top level, every `update_value` call with a non-empty key
path fails: the inner update returns `False` without descending, one
failure diagnostic is reported, and no mutation and no write occur. -/
theorem spec_claim_C10 (L : Libs) (fs : FS) (path : String) (d : Value)
    (keys : List String) (v : Value)
    (ht : d.truthy = true) (hd : d.isDict = false) (_hk : keys ≠ []) :
    update_value L { config_path := path, config_data := some d } fs keys v
      = ({ config_path := path, config_data := some d }, fs, [.failedToUpdate], 0) := by
  cases d with
  | dict l => simp [Value.isDict] at hd
  | str s => simp [update_value, ht, recursive_update]
  | int n => simp [update_value, ht, recursive_update]
  | bool b => simp [update_value, ht, recursive_update]
  | null => simp [Value.truthy] at ht
  | list l => simp [update_value, ht, recursive_update]

/-- Witness for C10 at the non-empty sequence document holding 1, key
path a. -/
theorem spec_claim_C10_witness :
    Value.truthy (.list [.int 1]) = true ∧
    Value.isDict (.list [.int 1]) = false ∧
    ([("a")] : List String) ≠ [] ∧
    update_value L0 { config_path := ("p.json"), config_data := some (.list [.int 1]) }
        fsEmpty [("a")] (.int 2)
      = ({ config_path := ("p.json"), config_data := some (.list [.int 1]) }, fsEmpty,
         [.failedToUpdate], 0) := by
  refine ⟨by decide, by decide, by simp, ?_⟩
  exact spec_claim_C10 L0 fsEmpty ("p.json") (.list [.int 1]) [("a")] (.int 2)
    (by decide) (by decide) (by simp)

/-- C1 (counterexample): a path whose load succeeds with the empty
mapping — as `json.load` yields on an empty JSON object — produces a
document (not `None`), yet construction calls `backup_config` zero
times, because `__init__` tests Python truthiness, not presence. -/
theorem spec_claim_C1_counterexample :
    (read_config LEmptyDoc fsJson ("c.json")).1 = some (.dict []) ∧
    (initStore LEmptyDoc fsJson ("20250101120000") ("c.json")).2.2.2 = 0 := by
  exact ⟨rfl, rfl⟩

/-- C1 (amended): construction calls `backup_config` exactly once when
the loaded document is truthy (in particular non-empty) and zero times
otherwise — so a successfully loaded falsy document, such as the empty
mapping, produces no backup; when the backup runs, the timestamped
backup destination receives a byte-identical copy of the source
file. -/
theorem spec_claim_C1 (L : Libs) (fs : FS) (now path : String) :
    (initStore L fs now path).2.2.2
      = (if pyTruthyOpt (read_config L fs path).1 then 1 else 0) ∧
    (pyTruthyOpt (read_config L fs path).1 = true →
      (initStore L fs now path).2.1 (backupDest now path) = fs path) := by
  constructor
  · by_cases ht : pyTruthyOpt (read_config L fs path).1 = true
    · simp [initStore, ht]
    · simp [initStore, ht]
  · intro ht
    have hv : ∃ v, (read_config L fs path).1 = some v := by
      cases hq : (read_config L fs path).1 with
      | none => rw [hq] at ht; simp [pyTruthyOpt] at ht
      | some v => exact ⟨v, rfl⟩
    obtain ⟨v, hv⟩ := hv
    have hok : readBody L fs path = .ok v := by
      unfold read_config at hv
      cases hr : readBody L fs path with
      | ok w => rw [hr] at hv; simp at hv; rw [hv]
      | error e => rw [hr] at hv; simp at hv
    obtain ⟨c, hc⟩ := readBody_ok_file L fs path v hok
    simp only [initStore, ht, if_true]
    unfold backup_config
    rw [hc]
    simp [FS.set, hc]

/-- Witness for C1 (amended) at a JSON file parsed to a truthy
document: exactly one backup call, and the backup destination holds the
source file's bytes. -/
theorem spec_claim_C1_witness :
    pyTruthyOpt (read_config LOneKey fsJson ("c.json")).1 = true ∧
    (initStore LOneKey fsJson ("20250101120000") ("c.json")).2.2.2
      = (if pyTruthyOpt (read_config LOneKey fsJson ("c.json")).1 then 1 else 0) ∧
    (initStore LOneKey fsJson ("20250101120000") ("c.json")).2.1
        (backupDest ("20250101120000") ("c.json"))
      = fsJson ("c.json") := by
  refine ⟨rfl, ?_, ?_⟩
  · exact (spec_claim_C1 LOneKey fsJson ("20250101120000") ("c.json")).1
  · exact (spec_claim_C1 LOneKey fsJson ("20250101120000") ("c.json")).2 rfl

/-- C5 (counterexample): loading a path with an unrecognized extension
does not always fail with the unsupported-format diagnostic: when the
file is missing, `open` raises `FileNotFoundError` before the extension
is ever examined, and the reported failure is "file not found". -/
theorem spec_claim_C5_counterexample :
    read_config L0 fsEmpty ("config.toml")
      = (none, [.configNotFound ("config.toml")]) ∧
    Msg.errorReading .valueError ∉ (read_config L0 fsEmpty ("config.toml")).2 := by
  have h1 : read_config L0 fsEmpty ("config.toml")
      = (none, [.configNotFound ("config.toml")]) := rfl
  refine ⟨h1, ?_⟩
  rw [h1]
  simp

/-- C5 (amended): `read_config` selects the parser from the path's
extension, and for every path with an extension other than
`.json`/`.yaml`/`.yml` it yields no document: the reported failure is
the unsupported-format diagnostic when the file can be opened, and the
file-not-found diagnostic when the file is missing. -/
theorem spec_claim_C5 (L : Libs) (fs : FS) (path : String)
    (h1 : strEndsWith path (".json") = false)
    (h2 : strEndsWith path (".yaml") = false)
    (h3 : strEndsWith path (".yml") = false) :
    (read_config L fs path).1 = none ∧
    (fs path = none → (read_config L fs path).2 = [.configNotFound path]) ∧
    (∀ c, fs path = some c → (read_config L fs path).2 = [.errorReading .valueError]) := by
  cases hf : fs path with
  | none =>
    have hb : readBody L fs path = .error .fileNotFound := by
      unfold readBody
      rw [hf]
    simp [read_config, hb, readExcMsg, hf]
  | some c =>
    have hb : readBody L fs path = .error .valueError := by
      unfold readBody
      rw [hf]
      simp [h1, h2, h3]
    simp [read_config, hb, readExcMsg, hf]

/-- Witness for C5 (amended) at an existing file with an unsupported
extension: no document, and the unsupported-format diagnostic. -/
theorem spec_claim_C5_witness :
    strEndsWith ("config.toml") (".json") = false ∧
    strEndsWith ("config.toml") (".yaml") = false ∧
    strEndsWith ("config.toml") (".yml") = false ∧
    (read_config L0 fsToml ("config.toml")).1 = none ∧
    (read_config L0 fsToml ("config.toml")).2 = [.errorReading .valueError] := by
  refine ⟨by decide, by decide, by decide, ?_, ?_⟩
  · exact (spec_claim_C5 L0 fsToml ("config.toml") (by decide) (by decide) (by decide)).1
  · exact (spec_claim_C5 L0 fsToml ("config.toml") (by decide) (by decide)
      (by decide)).2.2 ("x") rfl

end ConfigMgr
